import Mathlib

/-!
Shallow embedding of the terminal-sessions server core:
the session manager (`PersistentSessionServer` in session-server-v3),
the WebSocket fan-out layer (`SessionAPI` in websocket-api.ts), and the
reconnecting client (`RobustSessionClient` in websocket-client.ts).

Pure data (buffers, queues, registries) is embedded directly; external
effects (the PTY process, timers, the network socket) are modelled as
explicit parameters, returned effect lists, and discrete time stamps
(milliseconds as `Nat`).
-/

namespace TermSessions

/-- Embeds `maxLogSize` from `PersistentSessionServer`: lines kept per session. -/
def maxLogSize : Nat := 10000

/-- Embeds `commandTimeout` from `PersistentSessionServer`: 2000 ms. -/
def commandTimeout : Nat := 2000

/-- Grace window of `killSession` (the local `timeout = 3000`). -/
def gracePeriodMs : Nat := 3000

/-- Poll interval of `killSession`'s wait loop (`sleep(100)`). -/
def killPollIntervalMs : Nat := 100

/-- A queued command request: command text and submission time
(the `{command, resolve, startTime}` entries of `commandQueue`). -/
structure CmdReq where
  command : String
  startTime : Nat
deriving Repr, DecidableEq

/-- The `CommandResult` interface of session-server-v3. -/
structure CommandResult where
  output : String
  exitCode : Int
  duration : Nat
deriving Repr, DecidableEq

/-- The per-session state of `SessionInfo` in session-server-v3.  The PTY
handle is external; its effects enter through the handlers modelled below.
`armedTimeout` is the absolute fire time of the `setTimeout` stored in
`currentTimeout` (when a command is in flight). -/
structure SessionInfo where
  id : String
  name : String
  logs : List String
  cwd : String
  env : List (String × String)
  isAlive : Bool
  createdAt : Nat
  lastActivity : Nat
  outputBuffer : String
  isProcessingCommand : Bool
  commandQueue : List CmdReq
  currentCommand : Option CmdReq
  lineBuffer : String
  armedTimeout : Option Nat
deriving Repr, DecidableEq

/-- One row of `listSessions()`. -/
structure SessionSummary where
  id : String
  name : String
  isAlive : Bool
  createdAt : Nat
  lastActivity : Nat
  logSize : Nat
deriving Repr, DecidableEq

/-- The errors thrown by the session manager (`throw new Error(...)`). -/
inductive SessionError
  | duplicateSession (id : String)
  | sessionNotFound (id : String)
  | sessionNotAlive (id : String)
deriving Repr, DecidableEq

/-- Options of `createSession` (`{cwd?, env?, shell?}`). -/
structure CreateOptions where
  cwd : Option String
  env : List (String × String)
  shell : Option String
deriving Repr, DecidableEq

/-- General form of the log append with FIFO eviction, parametrised by the
capacity (used to state lemmas uniformly in the capacity). -/
def boundedAppend (cap : Nat) (logs : List String) (line : String) : List String :=
  let grown := logs ++ [line]
  if grown.length > cap then grown.drop 1 else grown

/-- Embeds `addLog` from session-server-v3: `logs.push(line)`, then
`logs.shift()` when the length exceeds `maxLogSize`. -/
def addLog (logs : List String) (line : String) : List String :=
  boundedAppend maxLogSize logs line

/-- The Registry: the `sessions: Map<string, SessionInfo>` of the manager,
as an insertion-ordered association list (JS `Map` preserves insertion
order and has unique keys). -/
abbrev Registry := List (String × SessionInfo)

/-- Embeds `sessions.get(id)`. -/
def regGet (reg : Registry) (id : String) : Option SessionInfo :=
  match reg with
  | [] => none
  | (k, v) :: rest => if k = id then some v else regGet rest id

/-- Embeds `sessions.has(id)`. -/
def regHas (reg : Registry) (id : String) : Bool :=
  (regGet reg id).isSome

/-- Embeds `sessions.set(id, s)`: replace in place if the key exists, otherwise
append (JS `Map` insertion order). -/
def regSet (reg : Registry) (id : String) (s : SessionInfo) : Registry :=
  match reg with
  | [] => [(id, s)]
  | (k, v) :: rest => if k = id then (k, s) :: rest else (k, v) :: regSet rest id s

/-- Embeds `sessions.delete(id)`.  Keys are unique in a JS `Map`, so deleting the
one entry equals filtering the key out. -/
def regDelete (reg : Registry) (id : String) : Registry :=
  reg.filter (fun e => !(e.1 = id : Bool))

/-- Embeds `listSessions()` of session-server-v3. -/
def listSessions (reg : Registry) : List SessionSummary :=
  reg.map fun e =>
    { id := e.1, name := e.2.name, isAlive := e.2.isAlive,
      createdAt := e.2.createdAt, lastActivity := e.2.lastActivity,
      logSize := e.2.logs.length }

/-- Does `p` occur at the front of `l`?  (The anchored part of a regex
literal match.) -/
def charsStartWith : List Char → List Char → Bool
  | [], _ => true
  | _ :: _, [] => false
  | p :: ps, c :: cs => p == c && charsStartWith ps cs

/-- The characters of the `exitCodeMarker` constant. -/
def exitMarkerChars : List Char := "<<<EXIT:".data

/-- The characters of the `promptMarker` constant. -/
def promptMarkerChars : List Char := "<<<PROMPT>>>".data

/-- The `\n?` tail of the marker regexes: consume one newline if present. -/
def dropNewlineOpt : List Char → List Char
  | '\n' :: rest => rest
  | cs => cs

/-- Anchored match of `/<<<EXIT:\d+\n?/` at the front of `cs`; on success
returns the remainder after the matched text. -/
def matchExitAt (cs : List Char) : Option (List Char) :=
  if charsStartWith exitMarkerChars cs then
    let rest := cs.drop exitMarkerChars.length
    let ds := rest.takeWhile Char.isDigit
    if ds.isEmpty then none
    else some (dropNewlineOpt (rest.drop ds.length))
  else none

/-- Anchored match of `/<<<PROMPT>>>\n?/` at the front of `cs`. -/
def matchPromptAt (cs : List Char) : Option (List Char) :=
  if charsStartWith promptMarkerChars cs then
    some (dropNewlineOpt (cs.drop promptMarkerChars.length))
  else none

/-- Global replace-with-empty of the exit-code marker regex, scanning left
to right as `String.replace` with a `g` regex does.  Each match consumes at
least nine characters, so `l.length` steps of fuel always suffice. -/
def stripExitGo : Nat → List Char → List Char
  | 0, l => l
  | _ + 1, [] => []
  | fuel + 1, c :: cs =>
    match matchExitAt (c :: cs) with
    | some rest => stripExitGo fuel rest
    | none => c :: stripExitGo fuel cs

/-- Global replace-with-empty of the prompt marker regex. -/
def stripPromptGo : Nat → List Char → List Char
  | 0, l => l
  | _ + 1, [] => []
  | fuel + 1, c :: cs =>
    match matchPromptAt (c :: cs) with
    | some rest => stripPromptGo fuel rest
    | none => c :: stripPromptGo fuel cs

/-- Embeds `buf.replace(/<<<EXIT:\d+\n?/g, '')`. -/
def stripExitChars (l : List Char) : List Char := stripExitGo l.length l

/-- Embeds `buf.replace(/<<<PROMPT>>>\n?/g, '')`. -/
def stripPromptChars (l : List Char) : List Char := stripPromptGo l.length l

/-- JS `String.prototype.trim`: strip whitespace from both ends. -/
def trimChars (l : List Char) : List Char :=
  ((l.dropWhile Char.isWhitespace).reverse.dropWhile Char.isWhitespace).reverse

/-- The `cleanOutput` computation of the command-timeout handler: strip the
exit-code markers, then the prompt markers, then trim. -/
def cleanOutput (s : String) : String :=
  String.mk (trimChars (stripPromptChars (stripExitChars s.data)))

/-- JS `str.split(/\r?\n/)`: split on `\r\n` or bare `\n`; a lone `\r` is
not a terminator.  Always returns at least one (possibly empty) segment. -/
def splitLines : List Char → List (List Char)
  | [] => [[]]
  | '\r' :: '\n' :: rest => [] :: splitLines rest
  | '\n' :: rest => [] :: splitLines rest
  | c :: rest =>
    match splitLines rest with
    | [] => [[c]]
    | s :: ss => (c :: s) :: ss

/-- The payload of a `session:output` event. -/
structure OutputEvent where
  sessionId : String
  chunk : String
  lines : List String
  timestamp : Nat
deriving Repr, DecidableEq

/-- The `ptyProcess.onData` handler registered by `createSession`: append
the chunk to `outputBuffer` and `lineBuffer`, split the line buffer on
terminators, log every nonempty completed segment (the source skips
segments with `line.length > 0` false), keep the last segment buffered,
and emit a `session:output` event when the chunk is nonempty. -/
def onData (s : SessionInfo) (data : String) (now : Nat) :
    SessionInfo × Option OutputEvent :=
  let s1 := { s with lastActivity := now,
                     outputBuffer := s.outputBuffer ++ data,
                     lineBuffer := s.lineBuffer ++ data }
  let segments := (splitLines s1.lineBuffer.data).map String.mk
  let completedLines := segments.dropLast.filter (fun l => decide (0 < l.length))
  let s2 := { s1 with logs := completedLines.foldl addLog s1.logs,
                      lineBuffer := segments.getLastD "" }
  let ev :=
    if 0 < data.length then
      some { sessionId := s2.id, chunk := data, lines := completedLines, timestamp := now }
    else none
  (s2, ev)

/-- The typed events the manager emits (`SessionEventMap`), restricted to
the ones the claims mention. -/
inductive Event
  | commandStart (sessionId command : String) (startedAt : Nat)
  | commandFinished (sessionId command : String) (duration : Nat) (exitCode : Int)
      (output : String) (finishedAt : Nat)
  | sessionCreated (sessionId : String)
  | sessionExit (sessionId : String) (exitCode : Int) (timestamp : Nat)
deriving Repr, DecidableEq

/-- Embeds `processCommandQueue`: when the queue is nonempty and no command is in
flight, dequeue the head, clear the output buffer, log the command line,
write it to the PTY (external), emit `command:start`, and arm the
2000 ms timeout. -/
def processCommandQueue (s : SessionInfo) (now : Nat) : SessionInfo × List Event :=
  if s.commandQueue.isEmpty || s.isProcessingCommand then (s, [])
  else
    match s.commandQueue with
    | [] => (s, [])
    | current :: rest =>
      let s1 := { s with isProcessingCommand := true,
                         commandQueue := rest,
                         currentCommand := some current,
                         outputBuffer := "" }
      let s2 := { s1 with logs := addLog s1.logs ("$ " ++ current.command) }
      ({ s2 with armedTimeout := some (now + commandTimeout) },
       [Event.commandStart s2.id current.command current.startTime])

/-- Session-level `execCommand`: reject a dead session, enqueue the
request, and process the queue when it was idle. -/
def execCommandS (s : SessionInfo) (command : String) (now : Nat) :
    Except SessionError (SessionInfo × List Event) :=
  if !s.isAlive then Except.error (SessionError.sessionNotAlive s.id)
  else
    let s1 := { s with commandQueue := s.commandQueue ++ [⟨command, now⟩] }
    if !s1.isProcessingCommand then Except.ok (processCommandQueue s1 now)
    else Except.ok (s1, [])

/-- Registry-level `execCommand`: `SessionNotFound` on an unknown id. -/
def execCommand (reg : Registry) (sessionId command : String) (now : Nat) :
    Except SessionError (Registry × List Event) :=
  match regGet reg sessionId with
  | none => Except.error (SessionError.sessionNotFound sessionId)
  | some s =>
    match execCommandS s command now with
    | Except.error e => Except.error e
    | Except.ok (s1, evs) => Except.ok (regSet reg sessionId s1, evs)

/-- The body of the `setTimeout` armed by `processCommandQueue`: clear the
in-flight flag, clean the accumulated output, resolve the promise with
exit code 0, emit `command:finished`, and process the next queued
command.  Returns the resolved `(command, result)` pair alongside the new
state when a command was in flight. -/
def onCommandTimeout (s : SessionInfo) (now : Nat) :
    SessionInfo × Option (String × CommandResult) × List Event :=
  match s.currentCommand with
  | none => (s, none, [])
  | some current =>
    let s1 := { s with isProcessingCommand := false, armedTimeout := none }
    let cleanOut := cleanOutput s1.outputBuffer
    let result : CommandResult :=
      { output := cleanOut, exitCode := 0, duration := now - current.startTime }
    let s2 := { s1 with currentCommand := none }
    let (s3, evs) := processCommandQueue s2 now
    (s3, some (current.command, result),
     Event.commandFinished s2.id current.command (now - current.startTime) 0 cleanOut now
       :: evs)

/-- Embeds `getOutput(sessionId, lines?)`: unknown id throws; `if (lines)` is
falsy for `undefined` and for `0`, in which case all logs are returned;
otherwise `logs.slice(-lines)` keeps the most recent `lines` entries. -/
def getOutput (reg : Registry) (sessionId : String) (lines : Option Nat) :
    Except SessionError (List String) :=
  match regGet reg sessionId with
  | none => Except.error (SessionError.sessionNotFound sessionId)
  | some session =>
    match lines with
    | some n =>
      if n ≠ 0 then Except.ok (session.logs.drop (session.logs.length - n))
      else Except.ok session.logs
    | none => Except.ok session.logs

/-- Does `needle` occur as a contiguous substring of the list? -/
def hasSubChars (needle : List Char) : List Char → Bool
  | [] => needle.isEmpty
  | c :: cs => charsStartWith needle (c :: cs) || hasSubChars needle cs

/-- Model of `new RegExp(pattern, 'i').test(line)` for patterns without
regex metacharacters (such as the literal `"error"` of the spec's
scenario): case-insensitive substring containment. -/
def regexTestI (pattern line : String) : Bool :=
  hasSubChars (pattern.data.map Char.toLower) (line.data.map Char.toLower)

/-- One `searchLogs` result row (`{line, lineNumber, context?}`). -/
structure SearchResult where
  line : String
  lineNumber : Nat
  context : Option (List String)
deriving Repr, DecidableEq

/-- JS `Array.prototype.slice(start, stop)` for already-clamped bounds. -/
def jsSlice (l : List String) (start stop : Nat) : List String :=
  (l.take stop).drop start

/-- Embeds `options?.limit || 100`: `0` is falsy in JS, so it also yields 100. -/
def effectiveLimit (olimit : Option Nat) : Nat :=
  match olimit with
  | some n => if n = 0 then 100 else n
  | none => 100

/-- Embeds `options?.context || 0`. -/
def effectiveContext (octx : Option Nat) : Nat :=
  match octx with
  | some n => n
  | none => 0

/-- The scan loop of `searchLogs`: walk the buffer in order (index `i`,
`found` matches collected so far), stop at the match cap; a match reports
the 1-based line number and, when `ctx > 0`, the context window
`logs.slice(max(0, i-ctx), min(len, i+ctx+1))`.  (`i - ctx` in `Nat`
already clamps at zero.) -/
def searchGo (test : String → Bool) (limit ctx : Nat) (allLogs : List String) :
    List String → Nat → Nat → List SearchResult
  | [], _, _ => []
  | l :: rest, i, found =>
    if found < limit then
      if test l then
        { line := l, lineNumber := i + 1,
          context :=
            if 0 < ctx then
              some (jsSlice allLogs (i - ctx) (min allLogs.length (i + ctx + 1)))
            else none } ::
          searchGo test limit ctx allLogs rest (i + 1) (found + 1)
      else searchGo test limit ctx allLogs rest (i + 1) found
    else []

/-- Embeds `searchLogs(sessionId, pattern, {limit?, context?})`: compile the
pattern case-insensitively and scan the log buffer (read-only). -/
def searchLogs (reg : Registry) (sessionId pattern : String)
    (olimit octx : Option Nat) : Except SessionError (List SearchResult) :=
  match regGet reg sessionId with
  | none => Except.error (SessionError.sessionNotFound sessionId)
  | some session =>
    Except.ok (searchGo (regexTestI pattern) (effectiveLimit olimit)
      (effectiveContext octx) session.logs session.logs 0 0)

/-- The observable actions `killSession` performs, in program order.
`observedDead` marks the post-loop `if (session.isAlive)` check finding
the process terminated — the only point at which termination is ever
confirmed before removal. -/
inductive KillAction
  | sigint
  | sleepMs (ms : Nat)
  | observedDead
  | logForcedTermination
  | sigkill
  | deleteSession
deriving Repr, DecidableEq

/-- Process model for `killSession`: `dieAt = some d` means the process is
observed dead once `d` ms have elapsed after the SIGINT; `none` means it
ignores the interrupt and only dies from SIGKILL. -/
def aliveAt (dieAt : Option Nat) (t : Nat) : Bool :=
  match dieAt with
  | none => true
  | some d => decide (t < d)

/-- The wait loop of graceful `killSession`:
`while (session.isAlive && Date.now() - startTime < timeout) await sleep(100)`.
Returns the elapsed time at loop exit and the number of sleeps taken.
The loop runs at most `gracePeriodMs / killPollIntervalMs` times, which is
exactly the fuel the wrapper passes. -/
def pollLoop (dieAt : Option Nat) : Nat → Nat → Nat × Nat
  | 0, t => (t, 0)
  | fuel + 1, t =>
    if aliveAt dieAt t && decide (t < gracePeriodMs) then
      let r := pollLoop dieAt fuel (t + killPollIntervalMs)
      (r.1, r.2 + 1)
    else (t, 0)

/-- The synthetic log line written before escalation. -/
def forcedTerminationLog : String :=
  "[Process did not exit gracefully, forcing termination]"

/-- Embeds `killSession(sessionId, graceful)`: an unknown id returns at once
(`if (!session) return;`, no error).  A graceful kill sends SIGINT, polls
`isAlive` for up to the grace window, escalates with SIGKILL if the
process is still alive, sleeps 100 ms, and deletes the session from the
Registry.  Returns the new registry, the action trace in program order,
and the elapsed time in ms. -/
def killSession (reg : Registry) (sessionId : String) (graceful : Bool)
    (dieAt : Option Nat) : Except SessionError (Registry × List KillAction × Nat) :=
  match regGet reg sessionId with
  | none => Except.ok (reg, [], 0)
  | some session =>
    if session.isAlive then
      if graceful then
        let poll := pollLoop dieAt (gracePeriodMs / killPollIntervalMs) 0
        let t := poll.1
        let sleeps := List.replicate poll.2 (KillAction.sleepMs killPollIntervalMs)
        if aliveAt dieAt t then
          let reg1 := regSet reg sessionId
            { session with logs := addLog session.logs forcedTerminationLog }
          Except.ok (regDelete reg1 sessionId,
            KillAction.sigint :: sleeps ++
              [KillAction.logForcedTermination, KillAction.sigkill,
               KillAction.sleepMs killPollIntervalMs, KillAction.deleteSession],
            t + killPollIntervalMs)
        else
          Except.ok (regDelete reg sessionId,
            KillAction.sigint :: sleeps ++
              [KillAction.observedDead, KillAction.sleepMs killPollIntervalMs,
               KillAction.deleteSession],
            t + killPollIntervalMs)
      else
        Except.ok (regDelete reg sessionId,
          [KillAction.sigkill, KillAction.sleepMs killPollIntervalMs,
           KillAction.deleteSession],
          killPollIntervalMs)
    else
      Except.ok (regDelete reg sessionId,
        [KillAction.sleepMs killPollIntervalMs, KillAction.deleteSession],
        killPollIntervalMs)

/-- Embeds `createSession(id, options)`: a duplicate id throws before any
mutation; otherwise a PTY is spawned (external) and the fresh
`SessionInfo` is registered.  `initializeShell` then clears the output
buffer and logs, so the registered session starts empty.  Returned in
state-and-exception form: the second component is the registry after the
call (unchanged on error). -/
def createSession (reg : Registry) (id : String) (opts : CreateOptions)
    (processCwd : String) (now : Nat) : Except SessionError String × Registry :=
  if regHas reg id then
    (Except.error (SessionError.duplicateSession id), reg)
  else
    let info : SessionInfo :=
      { id := id, name := id, logs := [],
        cwd := opts.cwd.getD processCwd, env := opts.env,
        isAlive := true, createdAt := now, lastActivity := now,
        outputBuffer := "", isProcessingCommand := false,
        commandQueue := [], currentCommand := none,
        lineBuffer := "", armedTimeout := none }
    (Except.ok id, regSet reg id info)

/-- The per-connection `SubscriptionState` of `SessionAPI`. -/
structure SubscriptionState where
  sessions : List String
  all : Bool
  replayLines : Nat
deriving Repr, DecidableEq

/-- Embeds `sessionId ?? payload?.sessionId` in `pushEvent`. -/
def targetSessionOf (eventSessionId payloadSessionId : Option String) : Option String :=
  match eventSessionId with
  | some s => some s
  | none => payloadSessionId

/-- The subscription test of `pushEvent`:
`subscription.all || (targetSession && subscription.sessions.has(targetSession))`.
When `targetSession` is absent the right disjunct is falsy. -/
def isSubscribedTo (sub : SubscriptionState) (targetSession : Option String) : Bool :=
  sub.all ||
    (match targetSession with
     | some sid => sub.sessions.contains sid
     | none => false)

/-- Embeds `pushEvent`: walk the connection map in order and send to every
connection whose subscription matches.  Connections are identified by a
`Nat` handle; the result is the ordered list of recipients. -/
def pushEvent (conns : List (Nat × SubscriptionState))
    (eventSessionId payloadSessionId : Option String) : List Nat :=
  match conns with
  | [] => []
  | (ws, sub) :: rest =>
    if isSubscribedTo sub (targetSessionOf eventSessionId payloadSessionId) then
      ws :: pushEvent rest eventSessionId payloadSessionId
    else pushEvent rest eventSessionId payloadSessionId

/-- The `ConnectionState` enum of `RobustSessionClient`. -/
inductive ConnectionState
  | connecting
  | connected
  | disconnected
  | reconnecting
deriving Repr, DecidableEq

/-- Base retry delay of the reconnecting client (1 s). -/
def baseReconnectDelay : Nat := 1000

/-- Retry-delay ceiling of the reconnecting client (5 s). -/
def maxReconnectDelay : Nat := 5000

/-- The observable client state of `RobustSessionClient`: connection
state, retry bookkeeping, whether a retry timer is armed (and with which
delay), whether a transport object exists, and the pending request ids. -/
structure ClientState where
  state : ConnectionState
  reconnectAttempts : Nat
  reconnectDelay : Nat
  reconnectTimer : Option Nat
  wsPresent : Bool
  pending : List String
deriving Repr, DecidableEq

/-- The state the constructor starts from (before its `connect()` call). -/
def initialClientState : ClientState :=
  { state := ConnectionState.disconnected, reconnectAttempts := 0,
    reconnectDelay := baseReconnectDelay, reconnectTimer := none,
    wsPresent := false, pending := [] }

/-- Effects the client emits towards the outside world. -/
inductive ClientEffect
  | connectAttempt
  | rejectPending (id : String) (reason : String)
deriving Repr, DecidableEq

/-- Embeds `scheduleReconnect`: arm the retry timer with the current delay,
bump the attempt counter, and double the delay capped at
`maxReconnectDelay` for the next failure. -/
def scheduleReconnect (c : ClientState) : ClientState :=
  { c with state := ConnectionState.reconnecting,
           reconnectAttempts := c.reconnectAttempts + 1,
           reconnectTimer := some c.reconnectDelay,
           reconnectDelay := min (c.reconnectDelay * 2) maxReconnectDelay }

/-- The `open` handler: mark connected and reset the attempt counter and
the retry delay to the base value. -/
def onOpen (c : ClientState) : ClientState :=
  { c with state := ConnectionState.connected,
           reconnectAttempts := 0,
           reconnectDelay := baseReconnectDelay }

/-- Embeds `connect()`: a no-op while connecting or connected; otherwise create
a fresh transport and attempt the connection. -/
def connectFn (c : ClientState) : ClientState × List ClientEffect :=
  if c.state = ConnectionState.connecting ∨ c.state = ConnectionState.connected then
    (c, [])
  else
    ({ c with state := ConnectionState.connecting, wsPresent := true },
     [ClientEffect.connectAttempt])

/-- Embeds `close()`: cancel the retry timer, tear down the transport, reject
every pending request with `Client closed`, and mark disconnected. -/
def closeFn (c : ClientState) : ClientState × List ClientEffect :=
  ({ c with reconnectTimer := none, wsPresent := false, pending := [],
            state := ConnectionState.disconnected },
   c.pending.map (fun id => ClientEffect.rejectPending id "Client closed"))

/-- The retry timer firing: only does anything when a timer is armed, in
which case it calls `connect()`. -/
def onReconnectTimerFire (c : ClientState) : ClientState × List ClientEffect :=
  match c.reconnectTimer with
  | some _ => connectFn { c with reconnectTimer := none }
  | none => (c, [])

/-- The connection-seeking part of `request()`: when not connected it
enters `waitForConnection`, which calls `connect()` whenever the state is
`DISCONNECTED`. -/
def requestStep (c : ClientState) : ClientState × List ClientEffect :=
  if c.state = ConnectionState.connected then (c, [])
  else if c.state = ConnectionState.disconnected then connectFn c
  else (c, [])

/-- Decidable equality for `Except` results, so concrete runs of the
fallible operations can be checked by evaluation. -/
instance exceptDecEq {ε α : Type} [DecidableEq ε] [DecidableEq α] :
    DecidableEq (Except ε α) := fun x y =>
  match x, y with
  | Except.ok a, Except.ok b =>
    if h : a = b then isTrue (by rw [h]) else isFalse (fun he => by cases he; exact h rfl)
  | Except.error a, Except.error b =>
    if h : a = b then isTrue (by rw [h]) else isFalse (fun he => by cases he; exact h rfl)
  | Except.ok _, Except.error _ => isFalse (fun he => by cases he)
  | Except.error _, Except.ok _ => isFalse (fun he => by cases he)

/-- A concrete live, idle session used by witnesses and counterexamples. -/
def sampleSession : SessionInfo :=
  { id := "s1", name := "s1", logs := [], cwd := "/", env := [],
    isAlive := true, createdAt := 0, lastActivity := 0, outputBuffer := "",
    isProcessingCommand := false, commandQueue := [], currentCommand := none,
    lineBuffer := "", armedTimeout := none }

/-- The 10-line buffer of the `searchLogs` scenario: only line 5 contains
`error`. -/
def searchScenarioLogs : List String :=
  ["line one", "line two", "line three", "line four", "an error occurred",
   "line six", "line seven", "line eight", "line nine", "line ten"]

/-- The session of the `searchLogs` scenario. -/
def searchScenarioSession : SessionInfo :=
  { sampleSession with logs := searchScenarioLogs }

/-- The expected result of the `searchLogs` scenario: the single match at
1-based line 5 with the context window of lines 3 through 7. -/
def searchScenarioExpected : List SearchResult :=
  [{ line := "an error occurred", lineNumber := 5,
     context := some ["line three", "line four", "an error occurred",
                      "line six", "line seven"] }]

/-- A concrete client state about to be closed: mid-backoff with an armed
retry timer, a live transport, and one pending request. -/
def preCloseClient : ClientState :=
  { state := ConnectionState.reconnecting, reconnectAttempts := 2,
    reconnectDelay := 4000, reconnectTimer := some 2000,
    wsPresent := true, pending := ["r1"] }

/-! ## Theorems -/

/-- Embeds `boundedAppend` preserves the capacity bound. -/
theorem boundedAppend_length_le (cap : Nat) (logs : List String) (line : String)
    (h : logs.length ≤ cap) : (boundedAppend cap logs line).length ≤ cap := by
  simp only [boundedAppend]
  split
  · simp only [List.length_drop, List.length_append, List.length_singleton]
    omega
  · rename_i hle
    simp only [gt_iff_lt, not_lt, List.length_append, List.length_singleton] at hle
    simpa using hle

/-- Folding `boundedAppend` over any line sequence from the empty buffer
keeps exactly the last `cap` lines in insertion order. -/
theorem boundedAppend_foldl (cap : Nat) (lines : List String) :
    List.foldl (boundedAppend cap) [] lines = lines.drop (lines.length - cap) := by
  induction lines using List.reverseRecOn with
  | nil => simp
  | append_singleton ls x ih =>
    rw [List.foldl_append, List.foldl_cons, List.foldl_nil, ih]
    have hdlen : (ls.drop (ls.length - cap)).length = ls.length - (ls.length - cap) :=
      List.length_drop _ _
    by_cases hc : ls.length < cap
    · have h0 : ls.length - cap = 0 := by omega
      have h1 : ls.length + 1 - cap = 0 := by omega
      simp only [boundedAppend, h0, List.drop_zero, List.length_append,
        List.length_singleton, h1]
      rw [if_neg (by omega)]
    · push_neg at hc
      have h2 : (ls.drop (ls.length - cap)).length = cap := by omega
      simp only [boundedAppend]
      rw [if_pos (by simp only [List.length_append, List.length_singleton, h2]; omega)]
      rw [List.drop_append_eq_append_drop, List.drop_append_eq_append_drop, List.drop_drop]
      rw [h2]
      simp only [List.length_append, List.length_singleton]
      have e1 : ls.length - cap + 1 = ls.length + 1 - cap := by omega
      have e2 : (1 : Nat) - cap = ls.length + 1 - cap - ls.length := by omega
      rw [e1, e2]

/-- Claim C2: at every reachable state the log buffer holds at most
`maxLogSize` lines (`addLog` preserves the bound and the buffer starts
empty), and eviction is FIFO: after appending `maxLogSize + k` lines via
`addLog` the buffer holds exactly the last `maxLogSize` appended lines in
their original insertion order. -/
theorem claim_C2_logBuffer_bounded_fifo :
    (∀ logs line, logs.length ≤ maxLogSize → (addLog logs line).length ≤ maxLogSize) ∧
    (∀ lines : List String, maxLogSize ≤ lines.length →
      List.foldl addLog [] lines = lines.drop (lines.length - maxLogSize) ∧
      (List.foldl addLog [] lines).length = maxLogSize) := by
  constructor
  · exact fun logs line h => boundedAppend_length_le maxLogSize logs line h
  · intro lines h
    have hfold : List.foldl addLog [] lines = lines.drop (lines.length - maxLogSize) :=
      boundedAppend_foldl maxLogSize lines
    refine ⟨hfold, ?_⟩
    rw [hfold, List.length_drop]
    omega

/-- Witness for C2 at a concrete buffer of `maxLogSize + 1` lines. -/
theorem claim_C2_witness :
    maxLogSize ≤ (List.replicate 10000 "a" ++ ["b"]).length ∧
    List.foldl addLog [] (List.replicate 10000 "a" ++ ["b"]) =
      (List.replicate 10000 "a" ++ ["b"]).drop
        ((List.replicate 10000 "a" ++ ["b"]).length - maxLogSize) := by
  have h : maxLogSize ≤ (List.replicate 10000 "a" ++ ["b"]).length := by
    simp only [List.length_append, List.length_replicate, List.length_singleton, maxLogSize]
    omega
  exact ⟨h, (claim_C2_logBuffer_bounded_fifo.2 _ h).1⟩

/-- Claim C3: `createSession` on an id already present fails with
`DuplicateSession` and mutates nothing — the registry after the call is
the registry before it, so the session under that id and every other
session are unchanged. -/
theorem claim_C3_createSession_duplicate (reg : Registry) (id : String)
    (opts : CreateOptions) (processCwd : String) (now : Nat)
    (h : regHas reg id = true) :
    (createSession reg id opts processCwd now).1 =
        Except.error (SessionError.duplicateSession id) ∧
    (createSession reg id opts processCwd now).2 = reg ∧
    ∀ sid, regGet (createSession reg id opts processCwd now).2 sid = regGet reg sid := by
  refine ⟨?_, ?_, ?_⟩ <;> simp [createSession, h]

/-- Witness for C3: a registry that already holds `"s1"`. -/
theorem claim_C3_witness :
    regHas [("s1", sampleSession)] "s1" = true ∧
    (createSession [("s1", sampleSession)] "s1"
        { cwd := none, env := [], shell := none } "/" 0).1 =
      Except.error (SessionError.duplicateSession "s1") ∧
    (createSession [("s1", sampleSession)] "s1"
        { cwd := none, env := [], shell := none } "/" 0).2 =
      [("s1", sampleSession)] := by
  have h : regHas [("s1", sampleSession)] "s1" = true := by decide
  exact ⟨h,
    (claim_C3_createSession_duplicate [("s1", sampleSession)] "s1"
      { cwd := none, env := [], shell := none } "/" 0 h).1,
    (claim_C3_createSession_duplicate [("s1", sampleSession)] "s1"
      { cwd := none, env := [], shell := none } "/" 0 h).2.1⟩

/-- Claim C10: `killSession` on an id absent from the Registry returns
successfully without any error and leaves the Registry unchanged, whereas
`execCommand`, `getOutput` and `searchLogs` all fail with
`SessionNotFound` on the same id. -/
theorem claim_C10_killSession_unknown_id (reg : Registry) (sid : String)
    (graceful : Bool) (dieAt : Option Nat) (cmd pattern : String) (now : Nat)
    (lines olimit octx : Option Nat)
    (h : regGet reg sid = none) :
    killSession reg sid graceful dieAt = Except.ok (reg, [], 0) ∧
    execCommand reg sid cmd now = Except.error (SessionError.sessionNotFound sid) ∧
    getOutput reg sid lines = Except.error (SessionError.sessionNotFound sid) ∧
    searchLogs reg sid pattern olimit octx =
      Except.error (SessionError.sessionNotFound sid) := by
  refine ⟨?_, ?_, ?_, ?_⟩ <;> simp [killSession, execCommand, getOutput, searchLogs, h]

/-- Witness for C10: the id `"ghost"` is absent from a one-session
registry. -/
theorem claim_C10_witness :
    regGet [("s1", sampleSession)] "ghost" = none ∧
    killSession [("s1", sampleSession)] "ghost" true none =
      Except.ok ([("s1", sampleSession)], [], 0) ∧
    getOutput [("s1", sampleSession)] "ghost" none =
      Except.error (SessionError.sessionNotFound "ghost") := by
  have h : regGet [("s1", sampleSession)] "ghost" = none := by decide
  exact ⟨h,
    (claim_C10_killSession_unknown_id [("s1", sampleSession)] "ghost" true none
      "ls" "e" 0 none none none h).1,
    (claim_C10_killSession_unknown_id [("s1", sampleSession)] "ghost" true none
      "ls" "e" 0 none none none h).2.2.1⟩

/-- Claim C7: across consecutive failed attempts the armed retry delay is
the current `reconnectDelay`; it starts at the 1 s base, each failure
doubles it capped at the 5 s ceiling, the sequence is non-decreasing and
bounded by the cap, and a successful `open` resets the delay to the base
and the attempt counter to zero. -/
theorem claim_C7_reconnect_backoff (c0 : ClientState)
    (hbase : c0.reconnectDelay = baseReconnectDelay) :
    (∀ c : ClientState, (scheduleReconnect c).reconnectTimer = some c.reconnectDelay) ∧
    (scheduleReconnect^[0] c0).reconnectDelay = baseReconnectDelay ∧
    (∀ n, (scheduleReconnect^[n + 1] c0).reconnectDelay =
        min ((scheduleReconnect^[n] c0).reconnectDelay * 2) maxReconnectDelay) ∧
    (∀ n, (scheduleReconnect^[n] c0).reconnectDelay ≤
        (scheduleReconnect^[n + 1] c0).reconnectDelay) ∧
    (∀ n, (scheduleReconnect^[n] c0).reconnectDelay ≤ maxReconnectDelay) ∧
    (∀ c : ClientState, (onOpen c).reconnectDelay = baseReconnectDelay ∧
        (onOpen c).reconnectAttempts = 0) := by
  have hstep : ∀ n, (scheduleReconnect^[n + 1] c0).reconnectDelay =
      min ((scheduleReconnect^[n] c0).reconnectDelay * 2) maxReconnectDelay := by
    intro n
    rw [Function.iterate_succ_apply']
    rfl
  have hcap : ∀ n, (scheduleReconnect^[n] c0).reconnectDelay ≤ maxReconnectDelay := by
    intro n
    induction n with
    | zero => simp [hbase, baseReconnectDelay, maxReconnectDelay]
    | succ n _ => rw [hstep n]; exact min_le_right _ _
  refine ⟨fun c => rfl, by simpa using hbase, hstep, ?_, hcap, fun c => ⟨rfl, rfl⟩⟩
  intro n
  rw [hstep n]
  exact le_min (by omega) (hcap n)

/-- Witness for C7 at the constructor's initial client state. -/
theorem claim_C7_witness :
    initialClientState.reconnectDelay = baseReconnectDelay ∧
    (scheduleReconnect^[1] initialClientState).reconnectDelay =
      min ((scheduleReconnect^[0] initialClientState).reconnectDelay * 2)
        maxReconnectDelay := by
  exact ⟨rfl, (claim_C7_reconnect_backoff initialClientState rfl).2.2.1 0⟩

/-- Counterexample to claim C8 as stated: the client has no closed flag,
so in the state reached by calling `close()`, a subsequent `request()`
finds the state `DISCONNECTED`, `waitForConnection` calls `connect()`,
and a new connection attempt is made — contradicting that no connection
attempt occurs in any state reachable after `close()`. -/
theorem claim_C8_counterexample :
    (requestStep (closeFn preCloseClient).1).2 = [ClientEffect.connectAttempt] := by
  decide

/-- Claim C8 (amended): `close()` cancels any pending retry timer, tears
down the transport, rejects every pending request with `Client closed`,
and leaves no armed timer — so the retry timer firing can never trigger a
spontaneous reconnection — but a later `request()` call does initiate a
new connection attempt. -/
theorem claim_C8_close_teardown (c : ClientState) :
    (closeFn c).1.reconnectTimer = none ∧
    (closeFn c).1.wsPresent = false ∧
    (closeFn c).1.pending = [] ∧
    (closeFn c).2 =
      c.pending.map (fun id => ClientEffect.rejectPending id "Client closed") ∧
    onReconnectTimerFire (closeFn c).1 = ((closeFn c).1, []) := by
  exact ⟨rfl, rfl, rfl, rfl, rfl⟩

/-- Rewrites `pushEvent` as an order-preserving filter of the connection
map by the subscription test. -/
theorem pushEvent_eq_filter (conns : List (Nat × SubscriptionState))
    (esid psid : Option String) :
    pushEvent conns esid psid =
      (conns.filter (fun e => isSubscribedTo e.2 (targetSessionOf esid psid))).map
        Prod.fst := by
  induction conns with
  | nil => rfl
  | cons e rest ih =>
    obtain ⟨w, sub⟩ := e
    by_cases h : isSubscribedTo sub (targetSessionOf esid psid) = true
    · simp [pushEvent, List.filter_cons, h, ih]
    · simp [pushEvent, List.filter_cons, h, ih]

/-- Counterexample to claim C5 as stated: an event carrying no session id
reaches only `subscribeAll` connections, because the subscription test
`sub.all || (targetSession && …)` is falsy when `targetSession` is
absent; a connection subscribed to `"s1"` (with `all = false`) receives
nothing, although the claim requires an unconditional broadcast. -/
theorem claim_C5_counterexample :
    pushEvent [(0, { sessions := ["s1"], all := false, replayLines := 0 })] none none
      = [] ∧
    (0 : Nat) ∉
      pushEvent [(0, { sessions := ["s1"], all := false, replayLines := 0 })] none none := by
  decide

/-- Claim C5 (amended): an event tagged with a session id is pushed
exactly to the connections whose subscription has `all = true` or whose
session set contains that id; an event without any session id is pushed
exactly to the connections with `all = true` (not broadcast to all). -/
theorem claim_C5_fanout_rule (conns : List (Nat × SubscriptionState)) (ws : Nat)
    (sid : String) (psid : Option String) :
    (ws ∈ pushEvent conns (some sid) psid ↔
      ∃ sub, (ws, sub) ∈ conns ∧
        (sub.all = true ∨ sub.sessions.contains sid = true)) ∧
    (ws ∈ pushEvent conns none none ↔
      ∃ sub, (ws, sub) ∈ conns ∧ sub.all = true) := by
  constructor
  · rw [pushEvent_eq_filter]
    simp only [List.mem_map, List.mem_filter, targetSessionOf, isSubscribedTo,
      Bool.or_eq_true]
    constructor
    · rintro ⟨⟨w, sub⟩, ⟨hmem, hsub⟩, rfl⟩
      exact ⟨sub, hmem, hsub⟩
    · rintro ⟨sub, hmem, hsub⟩
      exact ⟨(ws, sub), ⟨hmem, hsub⟩, rfl⟩
  · rw [pushEvent_eq_filter]
    simp only [List.mem_map, List.mem_filter, targetSessionOf, isSubscribedTo,
      Bool.or_false]
    constructor
    · rintro ⟨⟨w, sub⟩, ⟨hmem, hsub⟩, rfl⟩
      exact ⟨sub, hmem, hsub⟩
    · rintro ⟨sub, hmem, hsub⟩
      exact ⟨(ws, sub), ⟨hmem, hsub⟩, rfl⟩

/-- Counterexample to claim C4 as stated: on the chunk `"abc\n\ndef"`
arriving at a session with an empty partial-line buffer, the split yields
the completed segments `"abc"` and `""`, but the handler skips segments
with zero length: the empty completed line is neither appended to the log
buffer nor included in the `lines` field of the emitted event. -/
theorem claim_C4_counterexample :
    "" ∈ ((splitLines ((sampleSession.lineBuffer ++ "abc\n\ndef").data)).map
        String.mk).dropLast ∧
    (onData sampleSession "abc\n\ndef" 0).2 =
      some { sessionId := "s1", chunk := "abc\n\ndef", lines := ["abc"],
             timestamp := 0 } ∧
    "" ∉ (onData sampleSession "abc\n\ndef" 0).1.logs := by
  decide

/-- Claim C4 (amended): on every output chunk the chunk is appended to the
output buffer, the partial-line buffer plus chunk is split on line
terminators, every *nonempty* completed segment is appended to the log
buffer (with eviction) and included in the `lines` field of the emitted
`output` event alongside the raw chunk, the remainder after the last
terminator stays buffered for the next chunk, and an event is emitted
exactly when the chunk is nonempty. -/
theorem claim_C4_onData_lines (s : SessionInfo) (data : String) (now : Nat) :
    ((onData s data now).1.outputBuffer = s.outputBuffer ++ data) ∧
    ((onData s data now).1.lineBuffer =
      ((splitLines (s.lineBuffer ++ data).data).map String.mk).getLastD "") ∧
    ((onData s data now).1.logs =
      List.foldl addLog s.logs
        (((splitLines (s.lineBuffer ++ data).data).map String.mk).dropLast.filter
          (fun l => decide (0 < l.length)))) ∧
    (0 < data.length →
      (onData s data now).2 =
        some { sessionId := s.id, chunk := data,
               lines := ((splitLines (s.lineBuffer ++ data).data).map
                   String.mk).dropLast.filter (fun l => decide (0 < l.length)),
               timestamp := now }) ∧
    (data.length = 0 → (onData s data now).2 = none) := by
  refine ⟨rfl, rfl, rfl, ?_, ?_⟩
  · intro h
    simp [onData, h]
  · intro h
    simp [onData, h]

/-- Witness for C4 (amended) on the chunk `"hi\nx"`. -/
theorem claim_C4_witness :
    0 < ("hi\nx" : String).length ∧
    (onData sampleSession "hi\nx" 0).2 =
      some { sessionId := "s1", chunk := "hi\nx", lines := ["hi"],
             timestamp := 0 } := by
  refine ⟨by decide, ?_⟩
  have h := (claim_C4_onData_lines sampleSession "hi\nx" 0).2.2.2.1 (by decide)
  rw [h]
  decide

/-- The `searchLogs` scan collects at most `limit - found` further
results. -/
theorem searchGo_length_le (test : String → Bool) (limit ctx : Nat)
    (allLogs : List String) :
    ∀ logs i found, (searchGo test limit ctx allLogs logs i found).length ≤
      limit - found := by
  intro logs
  induction logs with
  | nil => intro i found; simp [searchGo]
  | cons l rest ih =>
    intro i found
    simp only [searchGo]
    by_cases hf : found < limit
    · rw [if_pos hf]
      by_cases ht : test l = true
      · rw [if_pos ht]
        have := ih (i + 1) (found + 1)
        simp only [List.length_cons]
        omega
      · rw [if_neg ht]
        have := ih (i + 1) found
        omega
    · rw [if_neg hf]
      simp

/-- Claim C9: `searchLogs` compiles the pattern case-insensitively, scans
the buffer in insertion order collecting at most the capped number of
matches (default 100), reports 1-based line numbers with a symmetric
context window clipped to the buffer bounds, and is read-only (the model
returns results without touching the registry); in particular, on the
10-line scenario buffer whose only `error` line is line 5, a search with
two context lines returns lines 3 through 7 with line 5 as the match. -/
theorem claim_C9_searchLogs (reg : Registry) (sid pattern : String)
    (olimit octx : Option Nat) (results : List SearchResult)
    (h : searchLogs reg sid pattern olimit octx = Except.ok results) :
    results.length ≤ effectiveLimit olimit ∧
    regexTestI "ERROR" "An Error occurred" = true ∧
    searchLogs [("s1", searchScenarioSession)] "s1" "error" none (some 2) =
      Except.ok searchScenarioExpected := by
  refine ⟨?_, by decide, by decide⟩
  cases hg : regGet reg sid with
  | none => rw [searchLogs, hg] at h; cases h
  | some session =>
    rw [searchLogs, hg] at h
    have hr : results = searchGo (regexTestI pattern) (effectiveLimit olimit)
        (effectiveContext octx) session.logs session.logs 0 0 :=
      (Except.ok.injEq _ _ ▸ h).symm
    rw [hr]
    have := searchGo_length_le (regexTestI pattern) (effectiveLimit olimit)
      (effectiveContext octx) session.logs session.logs 0 0
    simpa using this

/-- Witness for C9 at the scenario registry. -/
theorem claim_C9_witness :
    searchLogs [("s1", searchScenarioSession)] "s1" "error" none (some 2) =
      Except.ok searchScenarioExpected ∧
    searchScenarioExpected.length ≤ effectiveLimit none := by
  have h : searchLogs [("s1", searchScenarioSession)] "s1" "error" none (some 2) =
      Except.ok searchScenarioExpected := by decide
  exact ⟨h, (claim_C9_searchLogs _ _ _ _ _ _ h).1⟩

/-- Deleting a session id removes it from the registry lookup. -/
theorem regGet_regDelete_self (reg : Registry) (sid : String) :
    regGet (regDelete reg sid) sid = none := by
  induction reg with
  | nil => rfl
  | cons e rest ih =>
    obtain ⟨k, v⟩ := e
    by_cases h : k = sid
    · simpa [regDelete, List.filter_cons, h] using ih
    · simpa [regDelete, List.filter_cons, h, regGet] using ih

/-- After deleting an id, no `listSessions` row carries it. -/
theorem listSessions_regDelete (reg : Registry) (sid : String) :
    ∀ info ∈ listSessions (regDelete reg sid), info.id ≠ sid := by
  intro info hmem
  simp only [listSessions, List.mem_map] at hmem
  obtain ⟨e, he, rfl⟩ := hmem
  simp only [regDelete, List.mem_filter, Bool.not_eq_eq_eq_not, Bool.not_true,
    decide_eq_false_iff_not] at he
  exact he.2

/-- The graceful-kill wait loop against a process that never dies from the
interrupt exits exactly at the grace window after thirty 100 ms sleeps. -/
theorem pollLoop_ignoring : pollLoop none 30 0 = (3000, 30) := by
  decide

/-- When the fuel covers the grace window, the wait loop exits only once
the process is observed dead or the grace window has elapsed. -/
theorem pollLoop_exit_disj (dieAt : Option Nat) :
    ∀ fuel t, gracePeriodMs ≤ t + fuel * killPollIntervalMs →
      aliveAt dieAt (pollLoop dieAt fuel t).1 = false ∨
      gracePeriodMs ≤ (pollLoop dieAt fuel t).1 := by
  intro fuel
  induction fuel with
  | zero =>
    intro t h
    right
    simpa [pollLoop] using h
  | succ fuel ih =>
    intro t h
    by_cases hc : (aliveAt dieAt t && decide (t < gracePeriodMs)) = true
    · have h' : gracePeriodMs ≤ (t + killPollIntervalMs) + fuel * killPollIntervalMs := by
        simp only [gracePeriodMs, killPollIntervalMs] at h ⊢
        omega
      have hrec := ih (t + killPollIntervalMs) h'
      simpa [pollLoop, hc] using hrec
    · have hsplit : ¬(aliveAt dieAt t = true ∧ t < gracePeriodMs) := by
        intro ⟨ha, hb⟩
        exact hc (by simp [ha, hb])
      by_cases ha : aliveAt dieAt t = true
      · right
        have hb : gracePeriodMs ≤ t := by
          by_contra hb
          exact hsplit ⟨ha, by omega⟩
        simpa [pollLoop, hc] using hb
      · left
        simp only [Bool.not_eq_true] at ha
        simpa [pollLoop, hc] using ha

/-- Starting from a poll-aligned time within the window, the wait loop
never exits past the grace window. -/
theorem pollLoop_exit_le (dieAt : Option Nat) :
    ∀ fuel t, killPollIntervalMs ∣ t → t ≤ gracePeriodMs →
      (pollLoop dieAt fuel t).1 ≤ gracePeriodMs := by
  intro fuel
  induction fuel with
  | zero =>
    intro t _ h2
    simpa [pollLoop] using h2
  | succ fuel ih =>
    intro t h1 h2
    by_cases hc : (aliveAt dieAt t && decide (t < gracePeriodMs)) = true
    · have hlt : t < gracePeriodMs := by
        have hc' := hc
        simp only [Bool.and_eq_true, decide_eq_true_eq] at hc'
        exact hc'.2
      have h1' : killPollIntervalMs ∣ t + killPollIntervalMs := by
        exact Nat.dvd_add h1 dvd_rfl
      have h2' : t + killPollIntervalMs ≤ gracePeriodMs := by
        simp only [gracePeriodMs, killPollIntervalMs] at h1 hlt ⊢
        omega
      simpa [pollLoop, hc] using ih (t + killPollIntervalMs) h1' h2'
    · simpa [pollLoop, hc] using h2

/-- Counterexample to claim C6 as stated: on the non-graceful path the
source runs `kill('SIGKILL'); await sleep(100); sessions.delete(id)` —
the session is removed from the Registry although termination was never
observed (no `observedDead` in the trace) and the elapsed 100 ms is far
below the grace window, so removal happens neither after confirmed
termination nor after the grace window elapses. -/
theorem claim_C6_counterexample :
    killSession [("s1", sampleSession)] "s1" false none =
      Except.ok ([], [KillAction.sigkill, KillAction.sleepMs 100,
        KillAction.deleteSession], 100) ∧
    KillAction.deleteSession ∈ ([KillAction.sigkill, KillAction.sleepMs 100,
      KillAction.deleteSession] : List KillAction) ∧
    KillAction.observedDead ∉ ([KillAction.sigkill, KillAction.sleepMs 100,
      KillAction.deleteSession] : List KillAction) ∧
    (100 : Nat) < gracePeriodMs := by
  decide

/-- Claim C6 (amended): a graceful `killSession` of a live session whose
process ignores the interrupt escalates to SIGKILL after the 3 s grace
window, with the SIGKILL strictly before the removal from the Registry
and the elapsed time within `[gracePeriod, gracePeriod + ε]`; a graceful
kill of a process that dies within the window removes the session only
after the poll loop observes it terminated (no SIGKILL is sent, and
removal is the last action); a non-graceful kill removes the session
immediately after the unconditional SIGKILL plus a fixed 100 ms settling
sleep, without confirming termination; in every case the id is absent
from the Registry and from `listSessions()` afterwards. -/
theorem claim_C6_killSession_removal (reg : Registry) (sid : String)
    (session : SessionInfo) (hget : regGet reg sid = some session)
    (halive : session.isAlive = true) :
    (∃ reg' trace elapsed,
      killSession reg sid true none = Except.ok (reg', trace, elapsed) ∧
      trace = KillAction.sigint :: List.replicate 30 (KillAction.sleepMs 100) ++
        [KillAction.logForcedTermination, KillAction.sigkill,
         KillAction.sleepMs 100, KillAction.deleteSession] ∧
      KillAction.sigkill ∈ trace ∧
      KillAction.deleteSession ∈ trace ∧
      trace.indexOf KillAction.sigkill < trace.indexOf KillAction.deleteSession ∧
      gracePeriodMs ≤ elapsed ∧ elapsed ≤ gracePeriodMs + killPollIntervalMs ∧
      regGet reg' sid = none ∧
      ∀ info ∈ listSessions reg', info.id ≠ sid) ∧
    (∀ d, d ≤ gracePeriodMs →
      ∃ reg' trace elapsed pre,
        killSession reg sid true (some d) = Except.ok (reg', trace, elapsed) ∧
        trace = pre ++ [KillAction.deleteSession] ∧
        KillAction.observedDead ∈ pre ∧
        KillAction.sigkill ∉ trace ∧
        elapsed ≤ gracePeriodMs + killPollIntervalMs ∧
        regGet reg' sid = none ∧
        ∀ info ∈ listSessions reg', info.id ≠ sid) ∧
    (∀ dieAt, ∃ reg',
      killSession reg sid false dieAt = Except.ok (reg',
        [KillAction.sigkill, KillAction.sleepMs killPollIntervalMs,
         KillAction.deleteSession], killPollIntervalMs) ∧
      KillAction.observedDead ∉ ([KillAction.sigkill,
        KillAction.sleepMs killPollIntervalMs,
        KillAction.deleteSession] : List KillAction) ∧
      killPollIntervalMs < gracePeriodMs ∧
      regGet reg' sid = none ∧
      ∀ info ∈ listSessions reg', info.id ≠ sid) := by
  refine ⟨?_, ?_, ?_⟩
  · refine ⟨regDelete (regSet reg sid
        { session with logs := addLog session.logs forcedTerminationLog }) sid,
      _, 3100, ?_, rfl, ?_, ?_, ?_, ?_, ?_, ?_, ?_⟩
    · simp [killSession, hget, halive, pollLoop_ignoring, aliveAt, gracePeriodMs,
        killPollIntervalMs]
    · decide
    · decide
    · decide
    · decide
    · decide
    · exact regGet_regDelete_self _ sid
    · exact listSessions_regDelete _ sid
  · intro d hd
    have hdisj := pollLoop_exit_disj (some d) (gracePeriodMs / killPollIntervalMs) 0
      (by decide)
    have hle := pollLoop_exit_le (some d) (gracePeriodMs / killPollIntervalMs) 0
      (dvd_zero _) (by decide)
    have hdead : aliveAt (some d)
        (pollLoop (some d) (gracePeriodMs / killPollIntervalMs) 0).1 = false := by
      rcases hdisj with h | h
      · exact h
      · simp only [aliveAt, decide_eq_false_iff_not]
        omega
    refine ⟨regDelete reg sid,
      KillAction.sigint ::
        List.replicate (pollLoop (some d) (gracePeriodMs / killPollIntervalMs) 0).2
          (KillAction.sleepMs killPollIntervalMs) ++
        [KillAction.observedDead, KillAction.sleepMs killPollIntervalMs,
         KillAction.deleteSession],
      (pollLoop (some d) (gracePeriodMs / killPollIntervalMs) 0).1 + killPollIntervalMs,
      KillAction.sigint ::
        List.replicate (pollLoop (some d) (gracePeriodMs / killPollIntervalMs) 0).2
          (KillAction.sleepMs killPollIntervalMs) ++
        [KillAction.observedDead, KillAction.sleepMs killPollIntervalMs],
      ?_, ?_, ?_, ?_, ?_, ?_, ?_⟩
    · simp [killSession, hget, halive, hdead]
    · simp
    · simp
    · simp [List.mem_replicate]
    · exact Nat.add_le_add_right hle killPollIntervalMs
    · exact regGet_regDelete_self _ sid
    · exact listSessions_regDelete _ sid
  · intro dieAt
    refine ⟨regDelete reg sid, ?_, by decide, by decide,
      regGet_regDelete_self _ sid, listSessions_regDelete _ sid⟩
    simp [killSession, hget, halive]

/-- Witness for C6 at a one-session registry holding the live
`sampleSession`, with the compliant process dying 1000 ms after the
interrupt and the non-graceful branch taken at `dieAt = none`. -/
theorem claim_C6_witness :
    regGet [("s1", sampleSession)] "s1" = some sampleSession ∧
    sampleSession.isAlive = true ∧
    (1000 : Nat) ≤ gracePeriodMs ∧
    (∃ reg' trace elapsed pre,
      killSession [("s1", sampleSession)] "s1" true (some 1000) =
        Except.ok (reg', trace, elapsed) ∧
      trace = pre ++ [KillAction.deleteSession] ∧
      KillAction.observedDead ∈ pre ∧
      KillAction.sigkill ∉ trace ∧
      elapsed ≤ gracePeriodMs + killPollIntervalMs ∧
      regGet reg' "s1" = none ∧
      ∀ info ∈ listSessions reg', info.id ≠ "s1") ∧
    (∃ reg',
      killSession [("s1", sampleSession)] "s1" false none = Except.ok (reg',
        [KillAction.sigkill, KillAction.sleepMs killPollIntervalMs,
         KillAction.deleteSession], killPollIntervalMs) ∧
      KillAction.observedDead ∉ ([KillAction.sigkill,
        KillAction.sleepMs killPollIntervalMs,
        KillAction.deleteSession] : List KillAction) ∧
      killPollIntervalMs < gracePeriodMs ∧
      regGet reg' "s1" = none ∧
      ∀ info ∈ listSessions reg', info.id ≠ "s1") := by
  refine ⟨by decide, rfl, by decide, ?_, ?_⟩
  · exact (claim_C6_killSession_removal [("s1", sampleSession)] "s1"
      sampleSession (by decide) rfl).2.1 1000 (by decide)
  · exact (claim_C6_killSession_removal [("s1", sampleSession)] "s1"
      sampleSession (by decide) rfl).2.2 none

/-- Claim C1: on a live idle session, `execCommand` arms the fixed
2000 ms timeout at submission; a command submitted while busy is only
queued; PTY output during the window only grows the transient output
buffer; when the timeout fires the promise resolves with the accumulated
buffer contents (markers stripped, trimmed), the placeholder exit code 0
and duration exactly `commandTimeout` (hence within `timeout + ε` even
for zero output, since the empty buffer cleans to the empty string), and
the next queued command is dequeued immediately after resolution. -/
theorem claim_C1_execCommand_timeout (s : SessionInfo) (c1 c2 : String) (t0 t1 : Nat)
    (halive : s.isAlive = true) (hidle : s.isProcessingCommand = false)
    (hqueue : s.commandQueue = []) :
    (execCommandS s c1 t0 = Except.ok
      ({ s with isProcessingCommand := true, commandQueue := [],
                currentCommand := some ⟨c1, t0⟩, outputBuffer := "",
                logs := addLog s.logs ("$ " ++ c1),
                armedTimeout := some (t0 + commandTimeout) },
       [Event.commandStart s.id c1 t0])) ∧
    (∀ s' : SessionInfo, s'.isAlive = true → s'.isProcessingCommand = true →
      execCommandS s' c2 t1 =
        Except.ok ({ s' with commandQueue := s'.commandQueue ++ [⟨c2, t1⟩] }, [])) ∧
    (∀ (s' : SessionInfo) (data : String) (now : Nat),
      (onData s' data now).1.outputBuffer = s'.outputBuffer ++ data ∧
      (onData s' data now).1.currentCommand = s'.currentCommand ∧
      (onData s' data now).1.commandQueue = s'.commandQueue ∧
      (onData s' data now).1.isProcessingCommand = s'.isProcessingCommand ∧
      (onData s' data now).1.armedTimeout = s'.armedTimeout) ∧
    (∀ s' : SessionInfo, s'.currentCommand = some ⟨c1, t0⟩ →
      s'.isProcessingCommand = true → s'.commandQueue = [⟨c2, t1⟩] →
      (onCommandTimeout s' (t0 + commandTimeout)).2.1 =
        some (c1, { output := cleanOutput s'.outputBuffer, exitCode := 0,
                    duration := commandTimeout }) ∧
      (onCommandTimeout s' (t0 + commandTimeout)).1.currentCommand =
        some ⟨c2, t1⟩ ∧
      (onCommandTimeout s' (t0 + commandTimeout)).1.isProcessingCommand = true) ∧
    cleanOutput "" = "" := by
  refine ⟨?_, ?_, ?_, ?_, rfl⟩
  · simp [execCommandS, processCommandQueue, halive, hidle, hqueue]
  · intro s' halive' hproc'
    simp [execCommandS, halive', hproc']
  · intro s' data now
    exact ⟨rfl, rfl, rfl, rfl, rfl⟩
  · intro s' hcur hproc hq
    refine ⟨?_, ?_, ?_⟩ <;>
      simp [onCommandTimeout, hcur, hq, processCommandQueue,
        Nat.add_sub_cancel_left]

/-- Witness for C1 at the live idle `sampleSession`. -/
theorem claim_C1_witness :
    sampleSession.isAlive = true ∧
    sampleSession.isProcessingCommand = false ∧
    sampleSession.commandQueue = [] ∧
    cleanOutput "" = "" := by
  refine ⟨rfl, rfl, rfl, ?_⟩
  exact (claim_C1_execCommand_timeout sampleSession "echo hi" "pwd" 0 1
    rfl rfl rfl).2.2.2.2

end TermSessions
